import Mathlib

/-!
Shallow embedding of `custom_components/homeseer/libhomeseer/devices.py`:
the HomeSeer device model, the capability classifier, the device factory,
update propagation, and the thermostat composite resolution, together with
theorems settling the specification claims about them.

Modelling conventions:
* Python dicts for raw device records, control items, control pairs and
  ranges become Lean structures with the same field names.
* Numeric values flowing through the JSON API (`value`, `ControlValue`,
  `RangeStart`, `RangeEnd`, setpoints) are modelled as rationals `ℚ`;
  `percent` arguments typed `int` in the source are `ℤ`.  Python float
  division `/` is modelled as exact division on `ℚ`; all concrete inputs
  used in counterexamples and witnesses are chosen so that the IEEE-754
  evaluation of the source coincides with the exact rational one.
* Python `None` becomes `Option.none`.
* The `request` callable (the external Request Sender) is modelled by
  having every mutator return the list of requests it issues, in order;
  `raise ValueError` becomes `Except.error`.
* The update callback is modelled as an opaque token (`ℕ`); `update_data`
  returns the updated device together with the number of times the
  registered callback was invoked.
-/

namespace HomeSeer

/-- Control-use codes, from the module-level constants of `devices.py`. -/
def CONTROL_USE_ON : ℤ := 1

def CONTROL_USE_OFF : ℤ := 2

def CONTROL_USE_DIM : ℤ := 3

def CONTROL_USE_STOP : ℤ := 7

def CONTROL_USE_HEAT_SETPOINT : ℤ := 12

def CONTROL_USE_COOL_SETPOINT : ℤ := 13

def CONTROL_USE_THERM_MODE_OFF : ℤ := 14

def CONTROL_USE_THERM_MODE_HEAT : ℤ := 15

def CONTROL_USE_THERM_MODE_COOL : ℤ := 16

def CONTROL_USE_LOCK : ℤ := 18

def CONTROL_USE_UNLOCK : ℤ := 19

def CONTROL_USE_FAN : ℤ := 23

/-- Supported-feature flags, from the module-level constants of `devices.py`. -/
def SUPPORT_STATUS : ℕ := 0

def SUPPORT_ON : ℕ := 1

def SUPPORT_OFF : ℕ := 2

def SUPPORT_LOCK : ℕ := 4

def SUPPORT_UNLOCK : ℕ := 8

def SUPPORT_DIM : ℕ := 16

def SUPPORT_FAN : ℕ := 32

def SUPPORT_STOP : ℕ := 64

def SUPPORT_SETPOINT : ℕ := 128

def SUPPORT_THERM_MODES : ℕ := 512

/-- A raw device record from the HomeSeer JSON API (the `raw_data` dict).
`device_type_string` and `interface_name` may be JSON null. -/
structure RawData where
  ref : ℤ
  name : String
  location : String
  location2 : String
  value : ℚ
  status : String
  device_type_string : Option String
  last_change : String
  relationship : ℤ
  associated_devices : List ℤ
  interface_name : Option String
  deriving DecidableEq

/-- The `Range` dict of a control pair: `RangeStart` and `RangeEnd`. -/
structure RangeData where
  RangeStart : ℚ
  RangeEnd : ℚ
  deriving DecidableEq

/-- A control-pair dict: its `ControlUse` code, its `ControlValue`
(JSON null for continuous controls such as Dim) and its `Range`. -/
structure ControlPair where
  ControlUse : ℤ
  ControlValue : Option ℚ
  Range : RangeData
  deriving DecidableEq

/-- A per-device control item from the JSON API: the device `ref` and its
list of control pairs (`ControlPairs` may be JSON null). -/
structure ControlItem where
  ref : ℤ
  ControlPairs : Option (List ControlPair)
  deriving DecidableEq

/-- The params dict built by `HomeSeerStatusDevice.get_params` and handed to
the Request Sender by `set_value`. -/
structure Params where
  request : String
  ref : ℤ
  value : Option ℚ
  deriving DecidableEq

/-- Python's `int()` conversion applied to a (real) number: truncation
toward zero. -/
def py_int (q : ℚ) : ℤ :=
  if 0 ≤ q then ⌊q⌋ else ⌈q⌉

/-- State of `HomeSeerStatusDevice`: the cached raw record, the registered
update callback (an opaque token, or `none` when unregistered, the
constructor's initial state) and the suppression flag (initially false). -/
structure HomeSeerStatusDevice where
  raw_data : RawData
  control_data : Option ControlItem
  update_callback : Option ℕ
  suppress_update_callback : Bool
  deriving DecidableEq

/-- `HomeSeerSetPointDevice`: adds the `_set_min`/`_set_max` bounds. -/
structure HomeSeerSetPointDevice extends HomeSeerStatusDevice where
  set_min : ℚ
  set_max : ℚ
  deriving DecidableEq

/-- `HomeSeerSwitchableDevice`: adds the On and Off control values
(each possibly `None`, as returned by `get_control_value_by_control_use`). -/
structure HomeSeerSwitchableDevice extends HomeSeerStatusDevice where
  on_value : Option ℚ
  off_value : Option ℚ
  deriving DecidableEq

/-- `HomeSeerDimmableDevice`: adds the Dim range endpoints. -/
structure HomeSeerDimmableDevice extends HomeSeerSwitchableDevice where
  dim_start_value : ℚ
  dim_end_value : ℚ
  deriving DecidableEq

/-- `HomeSeerCoverDevice`: adds the Stop control value. -/
structure HomeSeerCoverDevice extends HomeSeerDimmableDevice where
  stop_value : Option ℚ
  deriving DecidableEq

/-- `HomeSeerFanDevice`: same state as a switchable device. -/
structure HomeSeerFanDevice extends HomeSeerSwitchableDevice
  deriving DecidableEq

/-- `HomeSeerLockableDevice`: adds the Lock and Unlock control values. -/
structure HomeSeerLockableDevice extends HomeSeerStatusDevice where
  lock_value : Option ℚ
  unlock_value : Option ℚ
  deriving DecidableEq

/-- The `ref` property: `int(self._raw_data["ref"])`. -/
def HomeSeerStatusDevice.ref (d : HomeSeerStatusDevice) : ℤ :=
  d.raw_data.ref

/-- The `name` property. -/
def HomeSeerStatusDevice.name (d : HomeSeerStatusDevice) : String :=
  d.raw_data.name

/-- The `device_type_string` property: the raw field if truthy (neither
null nor the empty string), else `None`. -/
def HomeSeerStatusDevice.device_type_string (d : HomeSeerStatusDevice) :
    Option String :=
  match d.raw_data.device_type_string with
  | some s => if s = "" then none else some s
  | none => none

/-- `register_update_callback`: stores the suppression flag and the
callback. -/
def HomeSeerStatusDevice.register_update_callback (d : HomeSeerStatusDevice)
    (callback : ℕ) (suppress_on_connection : Bool) : HomeSeerStatusDevice :=
  { d with
    suppress_update_callback := suppress_on_connection
    update_callback := some callback }

/-- `update_data`: replaces the whole raw record when `new_data` is not
`None`, then invokes the registered callback unless suppressed by a
connection event.  The second component counts callback invocations. -/
def HomeSeerStatusDevice.update_data (d : HomeSeerStatusDevice)
    (new_data : Option RawData) (connection_flag : Bool) :
    HomeSeerStatusDevice × ℕ :=
  let d' :=
    match new_data with
    | some nd => { d with raw_data := nd }
    | none => d
  if connection_flag && d.suppress_update_callback then (d', 0)
  else
    match d.update_callback with
    | some _ => (d', 1)
    | none => (d', 0)

/-- `get_params`: `{"request": "controldevicebyvalue", "ref": self.ref,
"value": value}`. -/
def HomeSeerStatusDevice.get_params (d : HomeSeerStatusDevice)
    (value : Option ℚ) : Params :=
  { request := "controldevicebyvalue", ref := d.ref, value := value }

/-- `set_value`: issues exactly one request with `get_params value`. -/
def HomeSeerStatusDevice.set_value (d : HomeSeerStatusDevice)
    (value : Option ℚ) : List Params :=
  [d.get_params value]

/-- `HomeSeerSetPointDevice.set_setpoint`: sends the value only when it
lies within `[set_min, set_max]`. -/
def HomeSeerSetPointDevice.set_setpoint (d : HomeSeerSetPointDevice)
    (value : ℚ) : List Params :=
  if d.set_min ≤ value ∧ value ≤ d.set_max then
    d.toHomeSeerStatusDevice.set_value (some value)
  else []

/-- `HomeSeerSwitchableDevice.on`: `set_value(self._on_value)`. -/
def HomeSeerSwitchableDevice.on (d : HomeSeerSwitchableDevice) :
    List Params :=
  d.toHomeSeerStatusDevice.set_value d.on_value

/-- `HomeSeerSwitchableDevice.off`: `set_value(self._off_value)`. -/
def HomeSeerSwitchableDevice.off (d : HomeSeerSwitchableDevice) :
    List Params :=
  d.toHomeSeerStatusDevice.set_value d.off_value

/-- `dim_supported`: the dim endpoints differ. -/
def HomeSeerDimmableDevice.dim_supported (d : HomeSeerDimmableDevice) :
    Bool :=
  decide (d.dim_start_value ≠ d.dim_end_value)

/-- `dim_range`: `self._dim_end_value - self._dim_start_value`. -/
def HomeSeerDimmableDevice.dim_range (d : HomeSeerDimmableDevice) : ℚ :=
  d.dim_end_value - d.dim_start_value

/-- `HomeSeerDimmableDevice.dim`: returns early (no request) when dim is
unsupported, raises `ValueError` for a percent outside `[0, 100]`, and
otherwise sends `int(step * percent) + dim_start` where
`step = dim_range / 100`. -/
def HomeSeerDimmableDevice.dim (d : HomeSeerDimmableDevice) (percent : ℤ) :
    Except String (List Params) :=
  if !d.dim_supported then Except.ok []
  else if percent < 0 ∨ percent > 100 then
    Except.error "Percent must be an integer from 0 to 100"
  else
    let step : ℚ := d.dim_range / 100
    let value : ℚ := (py_int (step * (percent : ℚ)) : ℚ) + d.dim_start_value
    Except.ok (d.toHomeSeerStatusDevice.set_value (some value))

/-- `HomeSeerCoverDevice.stop`: `set_value(self._stop_value)`. -/
def HomeSeerCoverDevice.stop (d : HomeSeerCoverDevice) : List Params :=
  d.toHomeSeerStatusDevice.set_value d.stop_value

/-- `HomeSeerFanDevice.speed`: bounds check, then sends
`int(on_value * (percent / 100))`; multiplying a `None` on-value is a
Python `TypeError`, modelled as an error. -/
def HomeSeerFanDevice.speed (d : HomeSeerFanDevice) (percent : ℤ) :
    Except String (List Params) :=
  if percent < 0 ∨ percent > 100 then
    Except.error "Percent must be an integer from 0 to 100"
  else
    match d.on_value with
    | none => Except.error "TypeError"
    | some ov =>
      let value : ℚ := (py_int (ov * ((percent : ℚ) / 100)) : ℚ)
      Except.ok (d.toHomeSeerStatusDevice.set_value (some value))

/-- `HomeSeerLockableDevice.lock`: `set_value(self._lock_value)`. -/
def HomeSeerLockableDevice.lock (d : HomeSeerLockableDevice) : List Params :=
  d.toHomeSeerStatusDevice.set_value d.lock_value

/-- `HomeSeerLockableDevice.unlock`: `set_value(self._unlock_value)`. -/
def HomeSeerLockableDevice.unlock (d : HomeSeerLockableDevice) :
    List Params :=
  d.toHomeSeerStatusDevice.set_value d.unlock_value

/-- The body of the classifier loop in `get_supported_features`: one
iteration of `for pair in control_pairs`, ORing in the flag selected by the
`if/elif` chain on `pair["ControlUse"]` (no change for unrecognized codes). -/
def classify_pair (supported_features : ℕ) (pair : ControlPair) : ℕ :=
  let control_use := pair.ControlUse
  if control_use = CONTROL_USE_ON then supported_features ||| SUPPORT_ON
  else if control_use = CONTROL_USE_OFF then supported_features ||| SUPPORT_OFF
  else if control_use = CONTROL_USE_STOP then supported_features ||| SUPPORT_STOP
  else if control_use = CONTROL_USE_LOCK then supported_features ||| SUPPORT_LOCK
  else if control_use = CONTROL_USE_UNLOCK then supported_features ||| SUPPORT_UNLOCK
  else if control_use = CONTROL_USE_DIM then supported_features ||| SUPPORT_DIM
  else if control_use = CONTROL_USE_FAN then supported_features ||| SUPPORT_FAN
  else if control_use = CONTROL_USE_COOL_SETPOINT ∨ control_use = CONTROL_USE_HEAT_SETPOINT then
    supported_features ||| SUPPORT_SETPOINT
  else if control_use = CONTROL_USE_THERM_MODE_COOL ∨ control_use = CONTROL_USE_THERM_MODE_HEAT ∨ control_use = CONTROL_USE_THERM_MODE_OFF then
    supported_features ||| SUPPORT_THERM_MODES
  else supported_features

/-- `get_supported_features`: `SUPPORT_STATUS` for a `None` item or `None`
`ControlPairs`, else the loop ORing in one flag per recognized
control-use code. -/
def get_supported_features (control_item : Option ControlItem) : ℕ :=
  match control_item with
  | none => SUPPORT_STATUS
  | some item =>
    match item.ControlPairs with
    | none => SUPPORT_STATUS
    | some control_pairs => control_pairs.foldl classify_pair SUPPORT_STATUS

/-- `get_control_pair_by_control_use`: first control pair of the item with
the given `ControlUse`, `None` when the item is `None` or no pair matches.
(When `ControlPairs` itself is null, Python would raise iterating it; that
path is unreachable from the factory, which only looks up pairs for masks
that required a pair list; modelled as `none`.) -/
def get_control_pair_by_control_use (item : Option ControlItem)
    (control_use : ℤ) : Option ControlPair :=
  match item with
  | none => none
  | some it =>
    match it.ControlPairs with
    | none => none
    | some control_pairs =>
      control_pairs.find? (fun x => x.ControlUse == control_use)

/-- `get_control_value_by_control_use`: the matched pair's `ControlValue`,
`None` when no pair matches. -/
def get_control_value_by_control_use (item : Option ControlItem)
    (control_use : ℤ) : Option ℚ :=
  match get_control_pair_by_control_use item control_use with
  | some control_pair => control_pair.ControlValue
  | none => none

/-- `get_range`: `(0, 0)` for a `None` pair, else the pair's
`(RangeStart, RangeEnd)`. -/
def get_range (control_pair : Option ControlPair) : ℚ × ℚ :=
  match control_pair with
  | none => (0, 0)
  | some p => (p.Range.RangeStart, p.Range.RangeEnd)

/-- `get_range_for`: range of the item's pair with the given control use. -/
def get_range_for (control_item : Option ControlItem) (control_use : ℤ) :
    ℚ × ℚ :=
  get_range (get_control_pair_by_control_use control_item control_use)

/-- The fresh `HomeSeerStatusDevice` state produced by the class
constructors: no callback registered, suppression off. -/
def mk_status_device (raw_data : RawData) (control_item : Option ControlItem) :
    HomeSeerStatusDevice :=
  { raw_data := raw_data
    control_data := control_item
    update_callback := none
    suppress_update_callback := false }

/-- `build_setpoint_device`: bounds from the CoolSetpoint pair when
present, else from the HeatSetpoint pair (range `(0,0)` when neither
matches). -/
def build_setpoint_device (raw_data : RawData)
    (control_item : Option ControlItem) : HomeSeerSetPointDevice :=
  let pair :=
    match get_control_pair_by_control_use control_item CONTROL_USE_COOL_SETPOINT with
    | none => get_control_pair_by_control_use control_item CONTROL_USE_HEAT_SETPOINT
    | some p => some p
  { mk_status_device raw_data control_item with
    set_min := (get_range pair).1
    set_max := (get_range pair).2 }

/-- `build_lockable_device`. -/
def build_lockable_device (raw_data : RawData)
    (control_item : Option ControlItem) : HomeSeerLockableDevice :=
  { mk_status_device raw_data control_item with
    lock_value := get_control_value_by_control_use control_item CONTROL_USE_LOCK
    unlock_value := get_control_value_by_control_use control_item CONTROL_USE_UNLOCK }

/-- `build_switch_device`. -/
def build_switch_device (raw_data : RawData)
    (control_item : Option ControlItem) : HomeSeerSwitchableDevice :=
  { mk_status_device raw_data control_item with
    on_value := get_control_value_by_control_use control_item CONTROL_USE_ON
    off_value := get_control_value_by_control_use control_item CONTROL_USE_OFF }

/-- `build_dimmable_device`. -/
def build_dimmable_device (raw_data : RawData)
    (control_item : Option ControlItem) : HomeSeerDimmableDevice :=
  { build_switch_device raw_data control_item with
    dim_start_value := (get_range_for control_item CONTROL_USE_DIM).1
    dim_end_value := (get_range_for control_item CONTROL_USE_DIM).2 }

/-- `build_cover_device`. -/
def build_cover_device (raw_data : RawData)
    (control_item : Option ControlItem) : HomeSeerCoverDevice :=
  { build_dimmable_device raw_data control_item with
    stop_value := get_control_value_by_control_use control_item CONTROL_USE_STOP }

/-- `build_fan_device`. -/
def build_fan_device (raw_data : RawData)
    (control_item : Option ControlItem) : HomeSeerFanDevice :=
  { build_switch_device raw_data control_item with }

/-- The possible results of the device factory (`build_device`'s Union
return type). -/
inductive Device where
  | status (d : HomeSeerStatusDevice)
  | switchable (d : HomeSeerSwitchableDevice)
  | dimmable (d : HomeSeerDimmableDevice)
  | cover (d : HomeSeerCoverDevice)
  | fan (d : HomeSeerFanDevice)
  | lockable (d : HomeSeerLockableDevice)
  | setpoint (d : HomeSeerSetPointDevice)
  deriving DecidableEq

/-- The variant of a factory result, for stating dispatch properties. -/
inductive VariantTag where
  | status
  | switchable
  | dimmable
  | cover
  | fan
  | lockable
  | setpoint
  deriving DecidableEq

/-- The variant tag of a `Device`. -/
def Device.tag : Device → VariantTag
  | .status _ => .status
  | .switchable _ => .switchable
  | .dimmable _ => .dimmable
  | .cover _ => .cover
  | .fan _ => .fan
  | .lockable _ => .lockable
  | .setpoint _ => .setpoint

/-- `build_device`: exact-mask dispatch to the variant builders; the final
`else` builds a status-only device and emits a diagnostic via
`_LOGGER.debug` (modelled by the Boolean second component, true exactly
when the diagnostic is emitted). -/
def build_device (raw_data : RawData) (item : Option ControlItem)
    (supported_features : ℕ) : Device × Bool :=
  if supported_features = SUPPORT_ON ||| SUPPORT_OFF then
    (Device.switchable (build_switch_device raw_data item), false)
  else if supported_features = SUPPORT_ON ||| SUPPORT_OFF ||| SUPPORT_DIM then
    (Device.dimmable (build_dimmable_device raw_data item), false)
  else if supported_features = SUPPORT_ON ||| SUPPORT_OFF ||| SUPPORT_DIM ||| SUPPORT_STOP then
    (Device.cover (build_cover_device raw_data item), false)
  else if supported_features = SUPPORT_ON ||| SUPPORT_OFF ||| SUPPORT_STOP then
    (Device.cover (build_cover_device raw_data item), false)
  else if supported_features = SUPPORT_ON ||| SUPPORT_OFF ||| SUPPORT_FAN then
    (Device.fan (build_fan_device raw_data item), false)
  else if supported_features = SUPPORT_LOCK ||| SUPPORT_UNLOCK then
    (Device.lockable (build_lockable_device raw_data item), false)
  else if supported_features = SUPPORT_SETPOINT then
    (Device.setpoint (build_setpoint_device raw_data item), false)
  else
    (Device.status (mk_status_device raw_data item), true)

/-- `get_device`: looks up the control item matching the raw record's ref,
classifies it, and dispatches to `build_device`. -/
def get_device (raw_data : RawData) (control_data : List ControlItem) :
    Device × Bool :=
  let item := control_data.find? (fun x => x.ref == raw_data.ref)
  let supported_features := get_supported_features item
  build_device raw_data item supported_features

/-- The children of a thermostat root among the device table: those whose
ref occurs in the root's `associated_devices` (the local `children` of
`get_thermostat`). -/
def thermostat_children (thermostat : HomeSeerStatusDevice)
    (devices : List HomeSeerStatusDevice) : List HomeSeerStatusDevice :=
  devices.filter (fun dev => thermostat.raw_data.associated_devices.contains dev.ref)

/-- The local `mode` lookup of `get_thermostat`. -/
def thermostat_mode_child (thermostat : HomeSeerStatusDevice)
    (devices : List HomeSeerStatusDevice) : Option HomeSeerStatusDevice :=
  (thermostat_children thermostat devices).find?
    (fun x => x.device_type_string == some "Z-Wave Mode")

/-- The local `heater` lookup of `get_thermostat`. -/
def thermostat_heater_child (thermostat : HomeSeerStatusDevice)
    (devices : List HomeSeerStatusDevice) : Option HomeSeerStatusDevice :=
  (thermostat_children thermostat devices).find?
    (fun x => x.device_type_string == some "Z-Wave Switch")

/-- The local `heating_setpoint` lookup of `get_thermostat` (note the
double space in the source label, preserved verbatim). -/
def thermostat_heating_setpoint_child (thermostat : HomeSeerStatusDevice)
    (devices : List HomeSeerStatusDevice) : Option HomeSeerStatusDevice :=
  (thermostat_children thermostat devices).find?
    (fun x => x.device_type_string == some "Z-Wave Heating  Setpoint")

/-- The local `cooling_setpoint` lookup of `get_thermostat`. -/
def thermostat_cooling_setpoint_child (thermostat : HomeSeerStatusDevice)
    (devices : List HomeSeerStatusDevice) : Option HomeSeerStatusDevice :=
  (thermostat_children thermostat devices).find?
    (fun x => x.device_type_string == some "Z-Wave Cooling  Setpoint")

/-- The local `energy_setpoint` lookup of `get_thermostat`. -/
def thermostat_energy_setpoint_child (thermostat : HomeSeerStatusDevice)
    (devices : List HomeSeerStatusDevice) : Option HomeSeerStatusDevice :=
  (thermostat_children thermostat devices).find?
    (fun x => x.device_type_string == some "Z-Wave Energy Save Heating Setpoint")

/-- The local `air_temp` lookup of `get_thermostat` (temperature sensors
are additionally matched by name). -/
def thermostat_air_temp_child (thermostat : HomeSeerStatusDevice)
    (devices : List HomeSeerStatusDevice) : Option HomeSeerStatusDevice :=
  (thermostat_children thermostat devices).find?
    (fun x => x.device_type_string == some "Z-Wave Temperature" &&
      x.name == "Thermostat Air Temperature")

/-- The local `floor_temp` lookup of `get_thermostat`. -/
def thermostat_floor_temp_child (thermostat : HomeSeerStatusDevice)
    (devices : List HomeSeerStatusDevice) : Option HomeSeerStatusDevice :=
  (thermostat_children thermostat devices).find?
    (fun x => x.device_type_string == some "Z-Wave Temperature" &&
      x.name == "Floor Temperature")

/-- The record a resolved thermostat composite would carry — the six
components the specification's `resolveThermostat` contract names.  The
source never constructs one (see `get_thermostat`). -/
structure HomeSeerThermostatDevice where
  mode : Option HomeSeerStatusDevice
  heater : Option HomeSeerStatusDevice
  heating_setpoint : Option HomeSeerStatusDevice
  cooling_setpoint : Option HomeSeerStatusDevice
  air_temp : Option HomeSeerStatusDevice
  floor_temp : Option HomeSeerStatusDevice
  deriving DecidableEq

/-- `get_thermostat`, transcribed from the source: it binds the children
and all component lookups, then ends with `return None` — the computed
lookups are discarded and the caller always receives `None`. -/
def get_thermostat (thermostat : HomeSeerStatusDevice)
    (devices : List HomeSeerStatusDevice) : Option HomeSeerThermostatDevice :=
  let children := thermostat_children thermostat devices
  let _mode := children.find? (fun x => x.device_type_string == some "Z-Wave Mode")
  let _heater := children.find? (fun x => x.device_type_string == some "Z-Wave Switch")
  let _heating_setpoint := children.find?
    (fun x => x.device_type_string == some "Z-Wave Heating  Setpoint")
  let _cooling_setpoint := children.find?
    (fun x => x.device_type_string == some "Z-Wave Cooling  Setpoint")
  let _energy_setpoint := children.find?
    (fun x => x.device_type_string == some "Z-Wave Energy Save Heating Setpoint")
  let _air_temp := children.find?
    (fun x => x.device_type_string == some "Z-Wave Temperature" &&
      x.name == "Thermostat Air Temperature")
  let _floor_temp := children.find?
    (fun x => x.device_type_string == some "Z-Wave Temperature" &&
      x.name == "Floor Temperature")
  none

/-- The flag a single control pair contributes in the classifier loop:
the `if/elif` chain of `get_supported_features` with zero for the
unrecognized (`else`) case. -/
def support_flag (control_use : ℤ) : ℕ :=
  if control_use = CONTROL_USE_ON then SUPPORT_ON
  else if control_use = CONTROL_USE_OFF then SUPPORT_OFF
  else if control_use = CONTROL_USE_STOP then SUPPORT_STOP
  else if control_use = CONTROL_USE_LOCK then SUPPORT_LOCK
  else if control_use = CONTROL_USE_UNLOCK then SUPPORT_UNLOCK
  else if control_use = CONTROL_USE_DIM then SUPPORT_DIM
  else if control_use = CONTROL_USE_FAN then SUPPORT_FAN
  else if control_use = CONTROL_USE_COOL_SETPOINT ∨ control_use = CONTROL_USE_HEAT_SETPOINT then
    SUPPORT_SETPOINT
  else if control_use = CONTROL_USE_THERM_MODE_COOL ∨ control_use = CONTROL_USE_THERM_MODE_HEAT ∨ control_use = CONTROL_USE_THERM_MODE_OFF then
    SUPPORT_THERM_MODES
  else 0

/-- The control-use codes the classifier recognizes. -/
def recognized_control_uses : List ℤ :=
  [CONTROL_USE_ON, CONTROL_USE_OFF, CONTROL_USE_STOP, CONTROL_USE_LOCK,
   CONTROL_USE_UNLOCK, CONTROL_USE_DIM, CONTROL_USE_FAN,
   CONTROL_USE_COOL_SETPOINT, CONTROL_USE_HEAT_SETPOINT,
   CONTROL_USE_THERM_MODE_COOL, CONTROL_USE_THERM_MODE_HEAT,
   CONTROL_USE_THERM_MODE_OFF]

lemma classify_pair_eq (s : ℕ) (p : ControlPair) :
    classify_pair s p = s ||| support_flag p.ControlUse := by
  unfold classify_pair support_flag
  dsimp only
  split_ifs <;> first | rfl | exact (Nat.or_zero s).symm

lemma support_flag_eq_zero (u : ℤ) (h : u ∉ recognized_control_uses) :
    support_flag u = 0 := by
  simp only [recognized_control_uses, List.mem_cons, List.not_mem_nil,
    or_false, not_or] at h
  obtain ⟨h1, h2, h3, h4, h5, h6, h7, h8, h9, h10, h11, h12⟩ := h
  unfold support_flag
  rw [if_neg h1, if_neg h2, if_neg h3, if_neg h4, if_neg h5, if_neg h6,
    if_neg h7, if_neg (not_or.mpr ⟨h8, h9⟩),
    if_neg (not_or.mpr ⟨h10, not_or.mpr ⟨h11, h12⟩⟩)]

lemma foldl_classify_pair_perm {l₁ l₂ : List ControlPair} (h : l₁.Perm l₂) :
    ∀ acc : ℕ, l₁.foldl classify_pair acc = l₂.foldl classify_pair acc := by
  induction h with
  | nil => intro _; rfl
  | cons x _ ih => intro acc; simpa using ih (classify_pair acc x)
  | swap x y l =>
    intro acc
    simp only [List.foldl_cons]
    have hxy : classify_pair (classify_pair acc y) x =
        classify_pair (classify_pair acc x) y := by
      simp only [classify_pair_eq, Nat.lor_assoc]
      rw [Nat.lor_comm (support_flag y.ControlUse)]
    rw [hxy]
  | trans _ _ ih₁ ih₂ => intro acc; rw [ih₁, ih₂]

lemma testBit_foldl_classify (i : ℕ) :
    ∀ (l : List ControlPair) (acc : ℕ), acc.testBit i = true →
      (l.foldl classify_pair acc).testBit i = true := by
  intro l
  induction l with
  | nil => intro acc h; exact h
  | cons p l ih =>
    intro acc h
    simp only [List.foldl_cons]
    apply ih
    rw [classify_pair_eq, Nat.testBit_lor, h, Bool.true_or]

lemma testBit_four_of_mem_dim :
    ∀ (l : List ControlPair) (acc : ℕ),
      (∃ p ∈ l, p.ControlUse = CONTROL_USE_DIM) →
      (l.foldl classify_pair acc).testBit 4 = true := by
  intro l
  induction l with
  | nil => rintro acc ⟨p, hp, -⟩; exact absurd hp (List.not_mem_nil p)
  | cons q l ih =>
    rintro acc ⟨p, hp, hu⟩
    rcases List.mem_cons.mp hp with rfl | hmem
    · simp only [List.foldl_cons]
      apply testBit_foldl_classify
      rw [classify_pair_eq, hu, Nat.testBit_lor]
      have hf : (support_flag CONTROL_USE_DIM).testBit 4 = true := by decide
      rw [hf, Bool.or_true]
    · simp only [List.foldl_cons]
      exact ih _ ⟨p, hmem, hu⟩

lemma no_dim_pair_of_not_testBit (item : Option ControlItem)
    (h : (get_supported_features item).testBit 4 = false) :
    get_control_pair_by_control_use item CONTROL_USE_DIM = none := by
  match item with
  | none => rfl
  | some it =>
    match hcp : it.ControlPairs with
    | none => simp [get_control_pair_by_control_use, hcp]
    | some pairs =>
      simp only [get_control_pair_by_control_use, hcp]
      simp only [get_supported_features, hcp] at h
      rw [List.find?_eq_none]
      intro x hx hbeq
      have hu : x.ControlUse = CONTROL_USE_DIM := by
        exact beq_iff_eq.mp hbeq
      have htrue := testBit_four_of_mem_dim pairs SUPPORT_STATUS ⟨x, hx, hu⟩
      rw [htrue] at h
      cases h

/-- A raw record used as a neutral base for concrete witness devices. -/
def raw0 : RawData :=
  { ref := 1, name := "dev", location := "", location2 := "", value := 0,
    status := "", device_type_string := none, last_change := "",
    relationship := 4, associated_devices := [], interface_name := none }

/-- C5: the classifier `get_supported_features` is a pure function
(definitionally, being a Lean function of its input); an absent item,
a null `ControlPairs` field, or an empty pair list yields the Status-only
mask; the mask is invariant under reordering of the control-pair list;
and a pair with an unrecognized control-use code contributes nothing. -/
theorem claim_c5_classifier_algebra :
    get_supported_features none = SUPPORT_STATUS
    ∧ (∀ r : ℤ, get_supported_features (some ⟨r, none⟩) = SUPPORT_STATUS)
    ∧ (∀ r : ℤ, get_supported_features (some ⟨r, some []⟩) = SUPPORT_STATUS)
    ∧ (∀ (r : ℤ) (pairs₁ pairs₂ : List ControlPair), pairs₁.Perm pairs₂ →
        get_supported_features (some ⟨r, some pairs₁⟩) =
          get_supported_features (some ⟨r, some pairs₂⟩))
    ∧ (∀ (r : ℤ) (p : ControlPair) (pairs : List ControlPair),
        p.ControlUse ∉ recognized_control_uses →
        get_supported_features (some ⟨r, some (p :: pairs)⟩) =
          get_supported_features (some ⟨r, some pairs⟩)) := by
  refine ⟨rfl, fun _ => rfl, fun _ => rfl, ?_, ?_⟩
  · intro r p₁ p₂ hperm
    simpa only [get_supported_features] using
      foldl_classify_pair_perm hperm SUPPORT_STATUS
  · intro r p pairs h
    simp only [get_supported_features, List.foldl_cons]
    rw [classify_pair_eq, support_flag_eq_zero _ h, Nat.or_zero]

/-- An On control pair with value 255. -/
def pair_on : ControlPair := ⟨CONTROL_USE_ON, some 255, ⟨0, 0⟩⟩

/-- An Off control pair with value 0. -/
def pair_off : ControlPair := ⟨CONTROL_USE_OFF, some 0, ⟨0, 0⟩⟩

/-- A control pair with a control-use code the classifier does not know. -/
def pair_unknown : ControlPair := ⟨99, some 5, ⟨0, 0⟩⟩

/-- Witness for C5 at concrete inputs: swapping On and Off pairs keeps the
mask, and prepending an unknown-code pair keeps the mask. -/
theorem claim_c5_witness :
    get_supported_features (some ⟨10, some [pair_on, pair_off]⟩) =
      get_supported_features (some ⟨10, some [pair_off, pair_on]⟩)
    ∧ get_supported_features (some ⟨10, some (pair_unknown :: [pair_on, pair_off])⟩) =
      get_supported_features (some ⟨10, some [pair_on, pair_off]⟩) :=
  ⟨claim_c5_classifier_algebra.2.2.2.1 10 _ _ (List.Perm.swap pair_off pair_on []),
   claim_c5_classifier_algebra.2.2.2.2 10 pair_unknown [pair_on, pair_off] (by decide)⟩

/-- C6: `update_data` with a new raw record replaces the device's whole
record; on a device registered via `register_update_callback`, the
callback is skipped exactly when the connection flag and the registered
suppression flag are both set, and is otherwise invoked exactly once. -/
theorem claim_c6_update_propagation (d : HomeSeerStatusDevice) (cb : ℕ)
    (suppress : Bool) (nd : RawData) (flag : Bool) :
    ((d.update_data (some nd) flag).1.raw_data = nd)
    ∧ ((d.register_update_callback cb suppress).update_data (some nd) flag).1.raw_data = nd
    ∧ ((d.register_update_callback cb suppress).update_data (some nd) flag).2 =
        (if flag && suppress then 0 else 1) := by
  have hrep : ∀ e : HomeSeerStatusDevice,
      (e.update_data (some nd) flag).1.raw_data = nd := by
    intro e
    unfold HomeSeerStatusDevice.update_data
    dsimp only
    split
    · rfl
    · split <;> rfl
  refine ⟨hrep d, hrep _, ?_⟩
  unfold HomeSeerStatusDevice.register_update_callback
    HomeSeerStatusDevice.update_data
  cases flag <;> cases suppress <;> simp

/-- C7: `set_setpoint` issues no request below `set_min` or above
`set_max`, and issues exactly one `set_value` request inside the bounds,
the endpoints included. -/
theorem claim_c7_setpoint_bounds (d : HomeSeerSetPointDevice) (v : ℚ) :
    ((v < d.set_min ∨ d.set_max < v) → d.set_setpoint v = [])
    ∧ (d.set_min ≤ v → v ≤ d.set_max →
        d.set_setpoint v = [d.toHomeSeerStatusDevice.get_params (some v)]) := by
  constructor
  · intro h
    unfold HomeSeerSetPointDevice.set_setpoint
    rw [if_neg]
    rintro ⟨h₁, h₂⟩
    rcases h with h | h
    · exact absurd h₁ (not_le.mpr h)
    · exact absurd h₂ (not_le.mpr h)
  · intro h₁ h₂
    unfold HomeSeerSetPointDevice.set_setpoint HomeSeerStatusDevice.set_value
    rw [if_pos ⟨h₁, h₂⟩]

/-- A concrete setpoint device with bounds `[5, 30]`. -/
def sp_device : HomeSeerSetPointDevice :=
  { raw_data := raw0, control_data := none, update_callback := none,
    suppress_update_callback := false, set_min := 5, set_max := 30 }

/-- Witness for C7: on the `[5, 30]` device, 4 and 31 issue nothing while
the endpoints 5 and 30 each issue exactly one request. -/
theorem claim_c7_witness :
    sp_device.set_setpoint 4 = []
    ∧ sp_device.set_setpoint 5 = [sp_device.toHomeSeerStatusDevice.get_params (some 5)]
    ∧ sp_device.set_setpoint 30 = [sp_device.toHomeSeerStatusDevice.get_params (some 30)]
    ∧ sp_device.set_setpoint 31 = [] := by
  refine ⟨(claim_c7_setpoint_bounds sp_device 4).1 ?_,
    (claim_c7_setpoint_bounds sp_device 5).2 ?_ ?_,
    (claim_c7_setpoint_bounds sp_device 30).2 ?_ ?_,
    (claim_c7_setpoint_bounds sp_device 31).1 ?_⟩ <;>
      simp [sp_device] <;> norm_num

/-- C9: on a dimmable or cover device whose dim range start equals its
end, `dim` returns without raising and issues no request for every
percent, out-of-range percents included: the `dim_supported` early return
precedes the `[0, 100]` validation. -/
theorem claim_c9_dim_unsupported :
    (∀ (d : HomeSeerDimmableDevice) (percent : ℤ),
      d.dim_start_value = d.dim_end_value → d.dim percent = Except.ok [])
    ∧ (∀ (c : HomeSeerCoverDevice) (percent : ℤ),
      c.dim_start_value = c.dim_end_value →
        c.toHomeSeerDimmableDevice.dim percent = Except.ok []) := by
  have h : ∀ (d : HomeSeerDimmableDevice) (percent : ℤ),
      d.dim_start_value = d.dim_end_value → d.dim percent = Except.ok [] := by
    intro d percent heq
    simp [HomeSeerDimmableDevice.dim, HomeSeerDimmableDevice.dim_supported, heq]
  exact ⟨h, fun c percent hc => h c.toHomeSeerDimmableDevice percent hc⟩

/-- A dimmable device whose dim range is degenerate (start = end = 5). -/
def dim_flat : HomeSeerDimmableDevice :=
  { raw_data := raw0, control_data := none, update_callback := none,
    suppress_update_callback := false, on_value := some 255,
    off_value := some 0, dim_start_value := 5, dim_end_value := 5 }

/-- Witness for C9: the degenerate device no-ops even at percents 101 and
-7, outside the validated range. -/
theorem claim_c9_witness :
    dim_flat.dim 101 = Except.ok [] ∧ dim_flat.dim (-7) = Except.ok [] :=
  ⟨claim_c9_dim_unsupported.1 dim_flat 101 rfl,
   claim_c9_dim_unsupported.1 dim_flat (-7) rfl⟩

/-- The root device of a concrete thermostat composite: children 2, 3, 4. -/
def thermo_root : HomeSeerStatusDevice :=
  mk_status_device
    { raw0 with
      ref := 1
      name := "Thermostat"
      relationship := 2
      associated_devices := [2, 3, 4] } none

/-- A child device labeled "Z-Wave Mode". -/
def thermo_mode : HomeSeerStatusDevice :=
  mk_status_device
    { raw0 with
      ref := 2
      name := "Thermostat Mode"
      device_type_string := some "Z-Wave Mode" } none

/-- A child device labeled "Z-Wave Switch". -/
def thermo_heater : HomeSeerStatusDevice :=
  mk_status_device
    { raw0 with
      ref := 3
      name := "Heater"
      device_type_string := some "Z-Wave Switch" } none

/-- A child device labeled "Z-Wave Heating  Setpoint" (double space as in
the source label). -/
def thermo_heating_sp : HomeSeerStatusDevice :=
  mk_status_device
    { raw0 with
      ref := 4
      name := "Heating Setpoint"
      device_type_string := some "Z-Wave Heating  Setpoint" } none

/-- The device table for the thermostat example. -/
def thermo_devices : List HomeSeerStatusDevice :=
  [thermo_mode, thermo_heater, thermo_heating_sp]

/-- C1: on a root whose children carry exactly the labels "Z-Wave Mode",
"Z-Wave Switch" and "Z-Wave Heating  Setpoint", the child lookups inside
`get_thermostat` resolve those three components (the remaining ones to
absent) — yet `get_thermostat` still returns `None`, because its final
statement discards the lookups.  The claim says the three components are
returned rather than an absent result, so this exhibits the divergence. -/
theorem claim_c1_get_thermostat_discards_result :
    thermostat_mode_child thermo_root thermo_devices = some thermo_mode
    ∧ thermostat_heater_child thermo_root thermo_devices = some thermo_heater
    ∧ thermostat_heating_setpoint_child thermo_root thermo_devices = some thermo_heating_sp
    ∧ thermostat_cooling_setpoint_child thermo_root thermo_devices = none
    ∧ thermostat_air_temp_child thermo_root thermo_devices = none
    ∧ thermostat_floor_temp_child thermo_root thermo_devices = none
    ∧ get_thermostat thermo_root thermo_devices = none := by
  refine ⟨?_, ?_, ?_, ?_, ?_, ?_, rfl⟩ <;> with_unfolding_all rfl

/-- A HeatSetpoint pair with range `[10, 28]`. -/
def pair_heat_sp : ControlPair := ⟨CONTROL_USE_HEAT_SETPOINT, none, ⟨10, 28⟩⟩

/-- A CoolSetpoint pair with range `[16, 32]`. -/
def pair_cool_sp : ControlPair := ⟨CONTROL_USE_COOL_SETPOINT, none, ⟨16, 32⟩⟩

/-- A control item carrying both setpoint pairs. -/
def item_both_sp : ControlItem := ⟨1, some [pair_heat_sp, pair_cool_sp]⟩

/-- A control item carrying only the HeatSetpoint pair. -/
def item_heat_sp : ControlItem := ⟨1, some [pair_heat_sp]⟩

/-- A control item with no setpoint pair. -/
def item_no_sp : ControlItem := ⟨1, some [pair_on, pair_off]⟩

/-- C10: the SetPoint device built by `build_setpoint_device` takes its
`(set_min, set_max)` bounds from the CoolSetpoint pair's range when such a
pair exists, only otherwise from the HeatSetpoint pair's range, and
defaults to `(0, 0)` when neither control use matches. -/
theorem claim_c10_setpoint_bounds_selection (raw_data : RawData)
    (item : Option ControlItem) :
    (∀ cp, get_control_pair_by_control_use item CONTROL_USE_COOL_SETPOINT = some cp →
      ((build_setpoint_device raw_data item).set_min,
        (build_setpoint_device raw_data item).set_max) =
        (cp.Range.RangeStart, cp.Range.RangeEnd))
    ∧ (get_control_pair_by_control_use item CONTROL_USE_COOL_SETPOINT = none →
      ∀ hp, get_control_pair_by_control_use item CONTROL_USE_HEAT_SETPOINT = some hp →
        ((build_setpoint_device raw_data item).set_min,
          (build_setpoint_device raw_data item).set_max) =
          (hp.Range.RangeStart, hp.Range.RangeEnd))
    ∧ (get_control_pair_by_control_use item CONTROL_USE_COOL_SETPOINT = none →
      get_control_pair_by_control_use item CONTROL_USE_HEAT_SETPOINT = none →
        ((build_setpoint_device raw_data item).set_min,
          (build_setpoint_device raw_data item).set_max) = (0, 0)) := by
  refine ⟨?_, ?_, ?_⟩
  · intro cp hcp
    simp [build_setpoint_device, hcp, get_range]
  · intro hnone hp hhp
    simp [build_setpoint_device, hnone, hhp, get_range]
  · intro h1 h2
    simp [build_setpoint_device, h1, h2, get_range]

/-- Witness for C10 at concrete items: with both pairs the cool range
`(16, 32)` wins; with only heat the heat range `(10, 28)` is used; with
neither the bounds default to `(0, 0)`. -/
theorem claim_c10_witness :
    ((build_setpoint_device raw0 (some item_both_sp)).set_min,
      (build_setpoint_device raw0 (some item_both_sp)).set_max) = (16, 32)
    ∧ ((build_setpoint_device raw0 (some item_heat_sp)).set_min,
      (build_setpoint_device raw0 (some item_heat_sp)).set_max) = (10, 28)
    ∧ ((build_setpoint_device raw0 (some item_no_sp)).set_min,
      (build_setpoint_device raw0 (some item_no_sp)).set_max) = (0, 0) :=
  ⟨(claim_c10_setpoint_bounds_selection raw0 (some item_both_sp)).1
      pair_cool_sp (by with_unfolding_all rfl),
   (claim_c10_setpoint_bounds_selection raw0 (some item_heat_sp)).2.1
      (by with_unfolding_all rfl) pair_heat_sp (by with_unfolding_all rfl),
   (claim_c10_setpoint_bounds_selection raw0 (some item_no_sp)).2.2
      (by with_unfolding_all rfl) (by with_unfolding_all rfl)⟩

/-- C8: `set_value` issues exactly one request, built by `get_params` with
the action string "controldevicebyvalue" (the spec's `controlByValue`),
the device's ref and the raw value; each unconditional mutator (`on`,
`off`, `lock`, `unlock`, `stop`) issues exactly that one request with its
control value; and every request a conditional mutator (`dim`, `speed`,
`set_setpoint`) ever issues is likewise a single `get_params`-shaped
request through `set_value`. -/
theorem claim_c8_requests_via_set_value :
    (∀ (d : HomeSeerStatusDevice) (v : Option ℚ),
      d.set_value v = [d.get_params v]
      ∧ (d.get_params v).request = "controldevicebyvalue"
      ∧ (d.get_params v).ref = d.ref ∧ (d.get_params v).value = v)
    ∧ (∀ sw : HomeSeerSwitchableDevice,
        sw.on = [sw.toHomeSeerStatusDevice.get_params sw.on_value]
        ∧ sw.off = [sw.toHomeSeerStatusDevice.get_params sw.off_value])
    ∧ (∀ lk : HomeSeerLockableDevice,
        lk.lock = [lk.toHomeSeerStatusDevice.get_params lk.lock_value]
        ∧ lk.unlock = [lk.toHomeSeerStatusDevice.get_params lk.unlock_value])
    ∧ (∀ cv : HomeSeerCoverDevice,
        cv.stop = [cv.toHomeSeerStatusDevice.get_params cv.stop_value])
    ∧ (∀ (dd : HomeSeerDimmableDevice) (p : ℤ) (reqs : List Params),
        dd.dim p = Except.ok reqs →
        reqs = [] ∨ ∃ v, reqs = [dd.toHomeSeerStatusDevice.get_params (some v)])
    ∧ (∀ (fd : HomeSeerFanDevice) (p : ℤ) (reqs : List Params),
        fd.speed p = Except.ok reqs →
        ∃ v, reqs = [fd.toHomeSeerStatusDevice.get_params (some v)])
    ∧ (∀ (sp : HomeSeerSetPointDevice) (v : ℚ),
        sp.set_setpoint v = [] ∨
        sp.set_setpoint v = [sp.toHomeSeerStatusDevice.get_params (some v)]) := by
  refine ⟨fun d v => ⟨rfl, rfl, rfl, rfl⟩, fun sw => ⟨rfl, rfl⟩,
    fun lk => ⟨rfl, rfl⟩, fun cv => rfl, ?_, ?_, ?_⟩
  · intro dd p reqs h
    unfold HomeSeerDimmableDevice.dim at h
    split_ifs at h
    · cases h
      exact Or.inl rfl
    · cases h
      exact Or.inr ⟨_, rfl⟩
  · intro fd p reqs h
    unfold HomeSeerFanDevice.speed at h
    split_ifs at h
    cases hov : fd.on_value with
    | none => rw [hov] at h; cases h
    | some ov =>
      rw [hov] at h
      cases h
      exact ⟨_, rfl⟩
  · intro sp v
    unfold HomeSeerSetPointDevice.set_setpoint
    split_ifs
    · exact Or.inr rfl
    · exact Or.inl rfl

/-- A dimmable device with range `(0, 99)`, the spec's worked example. -/
def dim_099 : HomeSeerDimmableDevice :=
  { raw_data := raw0, control_data := none, update_callback := none,
    suppress_update_callback := false, on_value := some 255,
    off_value := some 0, dim_start_value := 0, dim_end_value := 99 }

/-- Witness for C8: the request list `dim(50)` produces on the `(0, 99)`
device has the single-`get_params` shape. -/
theorem claim_c8_witness :
    ([dim_099.toHomeSeerStatusDevice.get_params (some 49)] = ([] : List Params)
      ∨ ∃ v, [dim_099.toHomeSeerStatusDevice.get_params (some 49)] =
          [dim_099.toHomeSeerStatusDevice.get_params (some v)]) :=
  claim_c8_requests_via_set_value.2.2.2.2.1 dim_099 50 _ (by with_unfolding_all rfl)

/-- A Dim control pair whose range runs backwards, `(50, 0)`. -/
def pair_dim_rev : ControlPair := ⟨CONTROL_USE_DIM, none, ⟨50, 0⟩⟩

/-- A control item classifying to mask On|Off|Dim with the backwards
range. -/
def item_dim_rev : ControlItem := ⟨1, some [pair_on, pair_off, pair_dim_rev]⟩

/-- The dimmable device the factory builds from `item_dim_rev`:
`dim_start_value = 50`, `dim_end_value = 0`. -/
def dim_rev : HomeSeerDimmableDevice :=
  build_dimmable_device raw0 (some item_dim_rev)

/-- C3 counterexample: `item_dim_rev` classifies to On|Off|Dim, so the
factory builds a dimmable device with `dimStart = 50 ≠ dimEnd = 0`;
`dim(3)` computes `int(-0.5 * 3) + 50 = int(-1.5) + 50 = 49` (Python
`int()` truncates toward zero), while the claim's
`floor(percent * (dimEnd - dimStart) / 100) + dimStart` gives
`⌊-1.5⌋ + 50 = 48` — the claimed raw value differs from the one sent. -/
theorem claim_c3_counterexample :
    get_supported_features (some item_dim_rev) =
      (SUPPORT_ON ||| SUPPORT_OFF ||| SUPPORT_DIM)
    ∧ dim_rev.dim_start_value ≠ dim_rev.dim_end_value
    ∧ dim_rev.dim 3 = Except.ok [dim_rev.toHomeSeerStatusDevice.get_params (some 49)]
    ∧ (⌊(3 : ℚ) * (dim_rev.dim_end_value - dim_rev.dim_start_value) / 100⌋ : ℚ)
        + dim_rev.dim_start_value = 48
    ∧ (49 : ℚ) ≠ 48 := by
  refine ⟨by decide, by with_unfolding_all decide, by with_unfolding_all rfl,
    by with_unfolding_all rfl, by norm_num⟩

/-- C3 (amended): for every dimmable device with `dimStart ≠ dimEnd` and
every percent in `[0, 100]`, `dim(percent)` issues exactly one request
whose raw value is the truncation toward zero (Python `int()`) of
`percent * (dimEnd - dimStart) / 100`, plus `dimStart`; whenever
`dimStart < dimEnd` the truncation coincides with the claimed floor.  In
particular `dim(50)` on the example range `(0, 99)` sends 49 (witness). -/
theorem claim_c3_dim_formula (d : HomeSeerDimmableDevice) (p : ℤ)
    (hne : d.dim_start_value ≠ d.dim_end_value) (h0 : 0 ≤ p) (h100 : p ≤ 100) :
    d.dim p = Except.ok [d.toHomeSeerStatusDevice.get_params
      (some ((py_int ((p : ℚ) * (d.dim_end_value - d.dim_start_value) / 100) : ℚ)
        + d.dim_start_value))]
    ∧ (d.dim_start_value < d.dim_end_value →
        py_int ((p : ℚ) * (d.dim_end_value - d.dim_start_value) / 100) =
          ⌊(p : ℚ) * (d.dim_end_value - d.dim_start_value) / 100⌋) := by
  have hsupp : ¬ (!d.dim_supported) = true := by
    simp [HomeSeerDimmableDevice.dim_supported, hne]
  constructor
  · unfold HomeSeerDimmableDevice.dim
    rw [if_neg hsupp, if_neg (by omega : ¬(p < 0 ∨ p > 100))]
    dsimp only
    rw [show d.dim_range / 100 * (p : ℚ) =
        (p : ℚ) * (d.dim_end_value - d.dim_start_value) / 100 from by
      unfold HomeSeerDimmableDevice.dim_range; ring]
    rfl
  · intro hlt
    unfold py_int
    rw [if_pos]
    exact div_nonneg
      (mul_nonneg (by exact_mod_cast h0) (sub_nonneg.mpr (le_of_lt hlt)))
      (by norm_num)

/-- Witness for C3 on the factory example range `(0, 99)`: `dim(50)`
issues exactly `set_value(49)`, and there the truncation equals the
floor. -/
theorem claim_c3_witness :
    dim_099.dim 50 = Except.ok [dim_099.toHomeSeerStatusDevice.get_params (some 49)]
    ∧ py_int (((50 : ℤ) : ℚ) * (dim_099.dim_end_value - dim_099.dim_start_value) / 100) =
        ⌊((50 : ℤ) : ℚ) * (dim_099.dim_end_value - dim_099.dim_start_value) / 100⌋ := by
  have h := claim_c3_dim_formula dim_099 50 (by with_unfolding_all decide)
    (by decide) (by decide)
  exact ⟨h.1.trans (by with_unfolding_all rfl), h.2 (by with_unfolding_all decide)⟩

/-- A dimmable device with range `(0, 100)`. -/
def dim_0100 : HomeSeerDimmableDevice :=
  { raw_data := raw0, control_data := none, update_callback := none,
    suppress_update_callback := false, on_value := some 255,
    off_value := some 0, dim_start_value := 0, dim_end_value := 100 }

/-- C4 counterexample: on the `(0, 100)` device, `dim(100)` sends the raw
value `int(1.0 * 100) + 0 = 100 = dimEnd`, not the claimed
`dimEnd - step = 100 - 1 = 99`; and on a device with `dimStart = dimEnd`
(where `step = 0`), `dim(-1)` returns without any domain error and issues
no request, against the claim's "for every Dimmable device". -/
theorem claim_c4_counterexample :
    dim_0100.dim 100 = Except.ok [dim_0100.toHomeSeerStatusDevice.get_params (some 100)]
    ∧ dim_0100.dim_end_value - dim_0100.dim_range / 100 = 99
    ∧ (100 : ℚ) ≠ 99
    ∧ dim_flat.dim (-1) = Except.ok []
    ∧ dim_flat.dim (-1) ≠ Except.error "Percent must be an integer from 0 to 100" := by
  refine ⟨by with_unfolding_all rfl, by with_unfolding_all rfl, by norm_num,
    by with_unfolding_all rfl, ?_⟩
  rw [show dim_flat.dim (-1) = Except.ok [] from by with_unfolding_all rfl]
  exact fun h => Except.noConfusion h

/-- C4 (amended): for every dimmable device with `dimStart ≠ dimEnd`,
`dim(-1)` and `dim(101)` fail with the domain error and issue no request,
while `dim(0)` and `dim(100)` succeed and send raw values `dimStart` and
`int(dimEnd - dimStart) + dimStart` respectively — the latter equal to
`dimEnd` (not `dimEnd - step`) whenever the range width is an integer. -/
theorem claim_c4_dim_endpoints (d : HomeSeerDimmableDevice)
    (hne : d.dim_start_value ≠ d.dim_end_value) :
    d.dim (-1) = Except.error "Percent must be an integer from 0 to 100"
    ∧ d.dim 101 = Except.error "Percent must be an integer from 0 to 100"
    ∧ d.dim 0 = Except.ok [d.toHomeSeerStatusDevice.get_params (some d.dim_start_value)]
    ∧ d.dim 100 = Except.ok [d.toHomeSeerStatusDevice.get_params
        (some ((py_int (d.dim_end_value - d.dim_start_value) : ℚ) + d.dim_start_value))]
    ∧ (∀ n : ℤ, d.dim_end_value - d.dim_start_value = (n : ℚ) →
        (py_int (d.dim_end_value - d.dim_start_value) : ℚ) + d.dim_start_value =
          d.dim_end_value) := by
  have hsupp : ¬ (!d.dim_supported) = true := by
    simp [HomeSeerDimmableDevice.dim_supported, hne]
  refine ⟨?_, ?_, ?_, ?_, ?_⟩
  · unfold HomeSeerDimmableDevice.dim
    rw [if_neg hsupp, if_pos (by omega : ((-1 : ℤ) < 0 ∨ (-1 : ℤ) > 100))]
  · unfold HomeSeerDimmableDevice.dim
    rw [if_neg hsupp, if_pos (by omega : ((101 : ℤ) < 0 ∨ (101 : ℤ) > 100))]
  · unfold HomeSeerDimmableDevice.dim
    rw [if_neg hsupp, if_neg (by omega : ¬((0 : ℤ) < 0 ∨ (0 : ℤ) > 100))]
    dsimp only
    rw [show d.dim_range / 100 * ((0 : ℤ) : ℚ) = 0 from by push_cast; ring]
    rw [show py_int 0 = 0 from by unfold py_int; norm_num]
    norm_num
    rfl
  · unfold HomeSeerDimmableDevice.dim
    rw [if_neg hsupp, if_neg (by omega : ¬((100 : ℤ) < 0 ∨ (100 : ℤ) > 100))]
    dsimp only
    rw [show d.dim_range / 100 * ((100 : ℤ) : ℚ) =
        d.dim_end_value - d.dim_start_value from by
      unfold HomeSeerDimmableDevice.dim_range; push_cast; ring]
    rfl
  · intro n hn
    have hp : py_int (d.dim_end_value - d.dim_start_value) = n := by
      rw [hn]
      unfold py_int
      rcases le_or_lt 0 (n : ℚ) with h | h
      · rw [if_pos h, Int.floor_intCast]
      · rw [if_neg (not_le.mpr h), Int.ceil_intCast]
    rw [hp, ← hn]
    ring

/-- Witness for C4 on the `(0, 99)` device: the out-of-range percents
raise the domain error with no request, `dim(0)` sends 0 = dimStart and
`dim(100)` sends 99 = dimEnd. -/
theorem claim_c4_witness :
    dim_099.dim (-1) = Except.error "Percent must be an integer from 0 to 100"
    ∧ dim_099.dim 101 = Except.error "Percent must be an integer from 0 to 100"
    ∧ dim_099.dim 0 = Except.ok [dim_099.toHomeSeerStatusDevice.get_params (some 0)]
    ∧ dim_099.dim 100 = Except.ok [dim_099.toHomeSeerStatusDevice.get_params (some 99)] := by
  have h := claim_c4_dim_endpoints dim_099 (by with_unfolding_all decide)
  exact ⟨h.1, h.2.1, h.2.2.1.trans (by with_unfolding_all rfl),
    h.2.2.2.1.trans (by with_unfolding_all rfl)⟩

/-- C2: `build_device` dispatches on the exact feature mask computed by
the classifier: On|Off to Switchable, On|Off|Dim to Dimmable,
On|Off|Dim|Stop and On|Off|Stop to Cover (the latter with dim range
`(0, 0)`, since the mask excludes any Dim pair), On|Off|Fan to Fan,
Lock|Unlock to Lockable, Setpoint alone to SetPoint, and any other mask —
including a recognized core plus extra modeled flags — to a status-only
device with the diagnostic emitted. -/
theorem claim_c2_factory_dispatch (raw_data : RawData)
    (item : Option ControlItem) :
    (get_supported_features item = (SUPPORT_ON ||| SUPPORT_OFF) →
      build_device raw_data item (get_supported_features item) =
        (Device.switchable (build_switch_device raw_data item), false))
    ∧ (get_supported_features item = (SUPPORT_ON ||| SUPPORT_OFF ||| SUPPORT_DIM) →
      build_device raw_data item (get_supported_features item) =
        (Device.dimmable (build_dimmable_device raw_data item), false))
    ∧ (get_supported_features item =
        (SUPPORT_ON ||| SUPPORT_OFF ||| SUPPORT_DIM ||| SUPPORT_STOP) →
      build_device raw_data item (get_supported_features item) =
        (Device.cover (build_cover_device raw_data item), false))
    ∧ (get_supported_features item = (SUPPORT_ON ||| SUPPORT_OFF ||| SUPPORT_STOP) →
      build_device raw_data item (get_supported_features item) =
        (Device.cover (build_cover_device raw_data item), false)
      ∧ (build_cover_device raw_data item).dim_start_value = 0
      ∧ (build_cover_device raw_data item).dim_end_value = 0)
    ∧ (get_supported_features item = (SUPPORT_ON ||| SUPPORT_OFF ||| SUPPORT_FAN) →
      build_device raw_data item (get_supported_features item) =
        (Device.fan (build_fan_device raw_data item), false))
    ∧ (get_supported_features item = (SUPPORT_LOCK ||| SUPPORT_UNLOCK) →
      build_device raw_data item (get_supported_features item) =
        (Device.lockable (build_lockable_device raw_data item), false))
    ∧ (get_supported_features item = SUPPORT_SETPOINT →
      build_device raw_data item (get_supported_features item) =
        (Device.setpoint (build_setpoint_device raw_data item), false))
    ∧ (get_supported_features item ∉
        ([SUPPORT_ON ||| SUPPORT_OFF, SUPPORT_ON ||| SUPPORT_OFF ||| SUPPORT_DIM,
          SUPPORT_ON ||| SUPPORT_OFF ||| SUPPORT_DIM ||| SUPPORT_STOP,
          SUPPORT_ON ||| SUPPORT_OFF ||| SUPPORT_STOP,
          SUPPORT_ON ||| SUPPORT_OFF ||| SUPPORT_FAN,
          SUPPORT_LOCK ||| SUPPORT_UNLOCK, SUPPORT_SETPOINT] : List ℕ) →
      build_device raw_data item (get_supported_features item) =
        (Device.status (mk_status_device raw_data item), true)) := by
  refine ⟨?_, ?_, ?_, ?_, ?_, ?_, ?_, ?_⟩
  · intro h; unfold build_device; rw [h, if_pos rfl]
  · intro h; unfold build_device
    rw [h, if_neg (by decide), if_pos rfl]
  · intro h; unfold build_device
    rw [h, if_neg (by decide), if_neg (by decide), if_pos rfl]
  · intro h
    have hbit : (get_supported_features item).testBit 4 = false := by
      rw [h]; decide
    have hnone := no_dim_pair_of_not_testBit item hbit
    refine ⟨?_, ?_, ?_⟩
    · unfold build_device
      rw [h, if_neg (by decide), if_neg (by decide), if_neg (by decide),
        if_pos rfl]
    · simp [build_cover_device, build_dimmable_device, get_range_for, hnone,
        get_range]
    · simp [build_cover_device, build_dimmable_device, get_range_for, hnone,
        get_range]
  · intro h; unfold build_device
    rw [h, if_neg (by decide), if_neg (by decide), if_neg (by decide),
      if_neg (by decide), if_pos rfl]
  · intro h; unfold build_device
    rw [h, if_neg (by decide), if_neg (by decide), if_neg (by decide),
      if_neg (by decide), if_neg (by decide), if_pos rfl]
  · intro h; unfold build_device
    rw [h, if_neg (by decide), if_neg (by decide), if_neg (by decide),
      if_neg (by decide), if_neg (by decide), if_neg (by decide), if_pos rfl]
  · intro h
    simp only [List.mem_cons, List.not_mem_nil, or_false, not_or] at h
    obtain ⟨g1, g2, g3, g4, g5, g6, g7⟩ := h
    unfold build_device
    rw [if_neg g1, if_neg g2, if_neg g3, if_neg g4, if_neg g5, if_neg g6,
      if_neg g7]

/-- A Stop control pair with value 17. -/
def pair_stop : ControlPair := ⟨CONTROL_USE_STOP, some 17, ⟨0, 0⟩⟩

/-- A control item classifying to On|Off|Stop, with no Dim pair. -/
def item_cover_nodim : ControlItem := ⟨1, some [pair_on, pair_off, pair_stop]⟩

/-- A thermostat-mode control pair, a modeled flag outside the dispatch
table's cores. -/
def pair_therm_heat : ControlPair := ⟨CONTROL_USE_THERM_MODE_HEAT, some 1, ⟨0, 0⟩⟩

/-- A control item with the recognized core On|Off plus the extra modeled
ThermModes flag. -/
def item_extra : ControlItem := ⟨1, some [pair_on, pair_off, pair_therm_heat]⟩

/-- Witness for C2 at concrete items: On|Off builds a Switchable,
On|Off|Stop builds a Cover with dim range `(0, 0)`, and On|Off plus a
thermostat-mode pair falls through to status-only with the diagnostic. -/
theorem claim_c2_witness :
    build_device raw0 (some item_no_sp) (get_supported_features (some item_no_sp)) =
      (Device.switchable (build_switch_device raw0 (some item_no_sp)), false)
    ∧ (build_device raw0 (some item_cover_nodim)
        (get_supported_features (some item_cover_nodim)) =
        (Device.cover (build_cover_device raw0 (some item_cover_nodim)), false)
      ∧ (build_cover_device raw0 (some item_cover_nodim)).dim_start_value = 0
      ∧ (build_cover_device raw0 (some item_cover_nodim)).dim_end_value = 0)
    ∧ build_device raw0 (some item_extra) (get_supported_features (some item_extra)) =
        (Device.status (mk_status_device raw0 (some item_extra)), true) :=
  ⟨(claim_c2_factory_dispatch raw0 (some item_no_sp)).1 (by decide),
   (claim_c2_factory_dispatch raw0 (some item_cover_nodim)).2.2.2.1 (by decide),
   (claim_c2_factory_dispatch raw0 (some item_extra)).2.2.2.2.2.2.2 (by decide)⟩

end HomeSeer
